import Mathlib

/-!
Verification of the document-generation-service repository.

The repository contains two generation flows:
* the database-template pipeline flow (src/pipeline.rs, src/persistence.rs,
  src/gcs.rs), modelled in namespaces `Persistence`, `Gcs`, `Pipeline`;
* the generator-driven flow wired into the binary (src/models.rs,
  src/pubsub/handler.rs, src/pubsub/publisher.rs, src/main.rs), modelled in
  namespaces `Models`, `Handler`, `MainLoop`.

External collaborators (Postgres, GCS network calls, Handlebars, Pandoc, the
Pub/Sub broker, clocks and UUID generation) are modelled as explicit
environment parameters; everything the Rust code computes itself (checksums,
paths, file names, state transitions, selection logic) is embedded as
executable Lean functions.
-/

namespace DocGen

/-- Opaque JSON payload carried through the pipeline (serde_json::Value).
The pipeline never inspects it; numbers are modelled as integers since no
claim depends on float semantics of a payload the code treats opaquely. -/
inductive Json where
  | null : Json
  | bool (b : Bool) : Json
  | num (n : Int) : Json
  | str (s : String) : Json
  | arr (elems : List Json) : Json
  | obj (fields : List (String × Json)) : Json

/-! ## SHA-256 (sha2 crate semantics, FIPS 180-4), used by src/gcs.rs -/

namespace SHA256

/-- Truncate to a 32-bit word. -/
def w32 (n : Nat) : Nat := n % 4294967296

/-- Right rotation of a 32-bit word. -/
def rotr (n w : Nat) : Nat := w32 ((w >>> n) ||| (w <<< (32 - n)))

def ch (x y z : Nat) : Nat := (x &&& y) ^^^ ((x ^^^ 4294967295) &&& z)

def maj (x y z : Nat) : Nat := (x &&& y) ^^^ (x &&& z) ^^^ (y &&& z)

def bigSigma0 (x : Nat) : Nat := rotr 2 x ^^^ rotr 13 x ^^^ rotr 22 x

def bigSigma1 (x : Nat) : Nat := rotr 6 x ^^^ rotr 11 x ^^^ rotr 25 x

def smallSigma0 (x : Nat) : Nat := rotr 7 x ^^^ rotr 18 x ^^^ (x >>> 3)

def smallSigma1 (x : Nat) : Nat := rotr 17 x ^^^ rotr 19 x ^^^ (x >>> 10)

/-- The 64 SHA-256 round constants, written in decimal. -/
def K : List Nat :=
  [1116352408, 1899447441, 3049323471, 3921009573,
   961987163, 1508970993, 2453635748, 2870763221,
   3624381080, 310598401, 607225278, 1426881987,
   1925078388, 2162078206, 2614888103, 3248222580,
   3835390401, 4022224774, 264347078, 604807628,
   770255983, 1249150122, 1555081692, 1996064986,
   2554220882, 2821834349, 2952996808, 3210313671,
   3336571891, 3584528711, 113926993, 338241895,
   666307205, 773529912, 1294757372, 1396182291,
   1695183700, 1986661051, 2177026350, 2456956037,
   2730485921, 2820302411, 3259730800, 3345764771,
   3516065817, 3600352804, 4094571909, 275423344,
   430227734, 506948616, 659060556, 883997877,
   958139571, 1322822218, 1537002063, 1747873779,
   1955562222, 2024104815, 2227730452, 2361852424,
   2428436474, 2756734187, 3204031479, 3329325298]

/-- Initial hash state, written in decimal. -/
def H0 : List Nat :=
  [1779033703, 3144134277, 1013904242, 2773480762,
   1359893119, 2600822924, 528734635, 1541459225]

/-- Big-endian 8-byte encoding of the message bit length. -/
def be64 (n : Nat) : List Nat :=
  [(n >>> 56) &&& 255, (n >>> 48) &&& 255, (n >>> 40) &&& 255, (n >>> 32) &&& 255,
   (n >>> 24) &&& 255, (n >>> 16) &&& 255, (n >>> 8) &&& 255, n &&& 255]

/-- Big-endian 4-byte encoding of a 32-bit word. -/
def be32 (n : Nat) : List Nat :=
  [(n >>> 24) &&& 255, (n >>> 16) &&& 255, (n >>> 8) &&& 255, n &&& 255]

/-- FIPS 180-4 padding: append 0x80, zeros, then the 64-bit bit length,
so the padded message length is a multiple of 64 bytes. -/
def pad (msg : List Nat) : List Nat :=
  let L := msg.length
  let zeros := (64 - (L + 9) % 64) % 64
  msg ++ 128 :: List.replicate zeros 0 ++ be64 (L * 8)

/-- Group bytes into big-endian 32-bit words. -/
def toWords : List Nat → List Nat
  | b0 :: b1 :: b2 :: b3 :: rest =>
      ((((b0 <<< 8) ||| b1) <<< 8 ||| b2) <<< 8 ||| b3) :: toWords rest
  | _ => []

/-- Extend 16 message-schedule words to 64. -/
def schedule (ws16 : List Nat) : Array Nat :=
  (List.range 48).foldl
    (fun w t =>
      let i := t + 16
      w.push (w32 (w.getD (i - 16) 0 + smallSigma0 (w.getD (i - 15) 0) +
                   w.getD (i - 7) 0 + smallSigma1 (w.getD (i - 2) 0))))
    ws16.toArray

/-- Working registers a..h of the compression loop. -/
structure Regs where
  a : Nat
  b : Nat
  c : Nat
  d : Nat
  e : Nat
  f : Nat
  g : Nat
  h : Nat

/-- One round of the compression function. -/
def round (w : Array Nat) (r : Regs) (t : Nat) : Regs :=
  let t1 := w32 (r.h + bigSigma1 r.e + ch r.e r.f r.g + K.getD t 0 + w.getD t 0)
  let t2 := w32 (bigSigma0 r.a + maj r.a r.b r.c)
  { a := w32 (t1 + t2), b := r.a, c := r.b, d := r.c,
    e := w32 (r.d + t1), f := r.e, g := r.f, h := r.g }

/-- Compress one 16-word block into the running hash state. -/
def compress (h : List Nat) (block : List Nat) : List Nat :=
  let w := schedule block
  let init : Regs :=
    { a := h.getD 0 0, b := h.getD 1 0, c := h.getD 2 0, d := h.getD 3 0,
      e := h.getD 4 0, f := h.getD 5 0, g := h.getD 6 0, h := h.getD 7 0 }
  let r := (List.range 64).foldl (round w) init
  [w32 (h.getD 0 0 + r.a), w32 (h.getD 1 0 + r.b), w32 (h.getD 2 0 + r.c),
   w32 (h.getD 3 0 + r.d), w32 (h.getD 4 0 + r.e), w32 (h.getD 5 0 + r.f),
   w32 (h.getD 6 0 + r.g), w32 (h.getD 7 0 + r.h)]

/-- SHA-256 digest (32 bytes) of a byte sequence. -/
def sha256 (msg : List Nat) : List Nat :=
  let ws := toWords (pad msg)
  let nblocks := ws.length / 16
  let final := (List.range nblocks).foldl
    (fun h i => compress h ((ws.drop (16 * i)).take 16)) H0
  ((final.map be32)).flatten

end SHA256

/-- Lower-case hex digit. -/
def hexDigit (n : Nat) : Char :=
  if n < 10 then Char.ofNat (48 + n) else Char.ofNat (87 + n)

/-- Lower-case hex encoding of a byte sequence (hex::encode). -/
def hexEncode (bytes : List Nat) : String :=
  ⟨bytes.foldr (fun b acc => hexDigit (b / 16 % 16) :: hexDigit (b % 16) :: acc) []⟩

/-- SQL COALESCE: the new value when present, otherwise the old one. -/
def coalesce {α : Type} (new old : Option α) : Option α :=
  match new with
  | some v => some v
  | none => old

/-! ## src/persistence.rs: models and the Document Record Store

Tenant isolation (set_tenant_context / Postgres RLS) happens at the
connection level, outside the query text; a store value below represents the
rows visible under the established tenant context. UUIDs are modelled as
their display strings, timestamps as naturals. -/

namespace Persistence

/-- Row of storage.generated_documents (struct GeneratedDocument). -/
structure GeneratedDocument where
  id : Int
  tenant_id : String
  project_id : Int
  template_id : Option Int
  correlation_id : Option String
  title : String
  document_type : String
  status : String
  requested_formats : List String
  input_params : Json
  generation_metadata : Option Json
  error_message : Option String
  requested_by : Int
  started_at : Option Nat
  completed_at : Option Nat
  created_at : Nat
  updated_at : Nat

/-- Row of storage.document_templates (struct DocumentTemplate). -/
structure DocumentTemplate where
  id : Int
  tenant_id : String
  name : String
  description : Option String
  template_type : String
  format : String
  template_content : String
  schema_version : String
  is_system : Bool
  is_active : Bool
  created_by : Int
  created_at : Nat
  updated_at : Nat
deriving DecidableEq

/-- Argument struct of DocumentDb::create_document. -/
structure CreateDocumentInput where
  tenant_id : String
  project_id : Int
  template_id : Option Int
  correlation_id : Option String
  title : String
  document_type : String
  requested_formats : List String
  input_params : Json
  requested_by : Int

/-- Argument struct of DocumentDb::create_artifact; one such value per
persisted artifact row. -/
structure CreateArtifactInput where
  tenant_id : String
  document_id : Int
  format : String
  file_name : String
  gcs_path : String
  file_size : Int
  content_type : String
  sha256_checksum : String
  page_count : Option Int
  rendering_duration_ms : Option Int

/-- DocumentDb::create_document: INSERT with status 'queued' and every
nullable lifecycle column NULL; id is assigned by the database sequence and
created_at/updated_at by column defaults, both supplied here as inputs. -/
def create_document (input : CreateDocumentInput) (new_id : Int) (now : Nat) :
    GeneratedDocument :=
  { id := new_id
    tenant_id := input.tenant_id
    project_id := input.project_id
    template_id := input.template_id
    correlation_id := input.correlation_id
    title := input.title
    document_type := input.document_type
    status := "queued"
    requested_formats := input.requested_formats
    input_params := input.input_params
    generation_metadata := none
    error_message := none
    requested_by := input.requested_by
    started_at := none
    completed_at := none
    created_at := now
    updated_at := now }

/-- DocumentDb::update_document_status: the conditional UPDATE.
started_at is bound to now only for status 'processing', completed_at only
for 'completed' or 'failed'; every nullable column is written through
COALESCE(new, old), so an absent value preserves the stored one. -/
def update_document_status (doc : GeneratedDocument) (status : String)
    (error_message : Option String) (generation_metadata : Option Json)
    (now : Nat) : GeneratedDocument :=
  let started_at : Option Nat := if status = "processing" then some now else none
  let completed_at : Option Nat :=
    if status = "completed" ∨ status = "failed" then some now else none
  { doc with
    status := status
    error_message := coalesce error_message doc.error_message
    generation_metadata := coalesce generation_metadata doc.generation_metadata
    started_at := coalesce started_at doc.started_at
    completed_at := coalesce completed_at doc.completed_at }

/-- DocumentDb::get_template: SELECT by id, restricted to is_active rows. -/
def get_template (store : List DocumentTemplate) (template_id : Int) :
    Option DocumentTemplate :=
  store.find? (fun t => t.id == template_id && t.is_active)

/-- The WHERE clause of get_template_by_type. -/
def tpl_matches (template_type fmt : String) (t : DocumentTemplate) : Bool :=
  t.template_type == template_type && t.format == fmt && t.is_active

/-- Sort position of the is_system column under ORDER BY is_system ASC
(Postgres orders false before true). -/
def sys_rank (t : DocumentTemplate) : Nat := if t.is_system then 1 else 0

/-- Strict "sorts before" relation of ORDER BY is_system ASC, updated_at
DESC: a precedes b when a is less system-flagged, or equally flagged and
more recently updated. -/
def tpl_before (a b : DocumentTemplate) : Bool :=
  (sys_rank a < sys_rank b : Bool) ||
    ((sys_rank a = sys_rank b : Bool) && (b.updated_at < a.updated_at : Bool))

/-- Fold selecting the first row of the ORDER BY: keeps the current best
unless a later row sorts strictly before it. -/
def pick_first (acc : Option DocumentTemplate) (t : DocumentTemplate) :
    Option DocumentTemplate :=
  match acc with
  | none => some t
  | some b => if tpl_before t b then some t else some b

/-- DocumentDb::get_template_by_type: SELECT matching (template_type,
format, is_active) ORDER BY is_system ASC, updated_at DESC LIMIT 1. -/
def get_template_by_type (store : List DocumentTemplate)
    (template_type fmt : String) : Option DocumentTemplate :=
  (store.filter (tpl_matches template_type fmt)).foldl pick_first none

end Persistence

/-! ## src/gcs.rs: the Artifact Store Client -/

namespace Gcs

/-- const BUCKET in src/gcs.rs. -/
def BUCKET : String := "mcxtest-attachments"

/-- struct RenderedFile: a rendered artifact ready for upload. -/
structure RenderedFile where
  format : String
  content_type : String
  file_name : String
  data : List Nat
  rendering_duration_ms : Int
  page_count : Option Int
deriving DecidableEq

/-- struct UploadResult. -/
structure UploadResult where
  gcs_path : String
  file_size : Int
  sha256_checksum : String
  format : String
  content_type : String
  file_name : String
  rendering_duration_ms : Int
  page_count : Option Int
deriving DecidableEq

/-- The GCS network call (client.upload_object), an external collaborator:
given bucket, object name and bytes it either succeeds or fails. -/
structure StorageNet where
  upload_object : String → String → List Nat → Except String Unit

/-- DocumentStorage::object_path. -/
def object_path (tenant_id : String) (project_id document_id : Int)
    (file_name : String) : String :=
  tenant_id ++ "/documents/" ++ toString project_id ++ "/" ++
    toString document_id ++ "/" ++ file_name

/-- DocumentStorage::upload_artifact: computes the deterministic object
path, the byte size, and the hex SHA-256 checksum of the exact bytes being
uploaded, performs the network upload, and returns the metadata. -/
def upload_artifact (net : StorageNet) (tenant_id : String)
    (project_id document_id : Int) (file : RenderedFile) :
    Except String UploadResult :=
  let gcs_path := object_path tenant_id project_id document_id file.file_name
  let file_size : Int := file.data.length
  let sha256_checksum := hexEncode (SHA256.sha256 file.data)
  match net.upload_object BUCKET gcs_path file.data with
  | Except.error e =>
      Except.error ("Failed to upload " ++ file.file_name ++ " to GCS path " ++
        gcs_path ++ ": " ++ e)
  | Except.ok _ =>
      Except.ok
        { gcs_path := gcs_path
          file_size := file_size
          sha256_checksum := sha256_checksum
          format := file.format
          content_type := file.content_type
          file_name := file.file_name
          rendering_duration_ms := file.rendering_duration_ms
          page_count := file.page_count }

/-- DocumentStorage::upload_all_artifacts: sequential uploads, stopping at
the first failure (the ? operator inside the loop). -/
def upload_all_artifacts (net : StorageNet) (tenant_id : String)
    (project_id document_id : Int) :
    List RenderedFile → Except String (List UploadResult)
  | [] => Except.ok []
  | file :: rest =>
      match upload_artifact net tenant_id project_id document_id file with
      | Except.error e => Except.error e
      | Except.ok r =>
          match upload_all_artifacts net tenant_id project_id document_id rest with
          | Except.error e => Except.error e
          | Except.ok rs => Except.ok (r :: rs)

end Gcs

/-! ## src/pipeline.rs: the Pipeline Orchestrator -/

namespace Pipeline

/-- struct DocumentGenerationRequest (pipeline flow, src/pipeline.rs). -/
structure DocumentGenerationRequest where
  tenant_id : String
  project_id : Int
  template_id : Option Int
  correlation_id : Option String
  title : String
  document_type : String
  requested_formats : List String
  input_params : Json
  requested_by : Int

/-- The existing Handlebars + Pandoc renderer (crate::renderer), an external
collaborator of src/pipeline.rs: template expansion and HTML-to-PDF
compilation either produce output or fail with a message. -/
structure DocumentRenderer where
  render_handlebars : String → Json → Except String String
  render_handlebars_markdown : String → Json → Except String String
  html_to_pdf : String → Except String (List Nat)

/-- UTF-8 bytes of a string (String::into_bytes). -/
def strBytes (s : String) : List Nat := s.toUTF8.toList.map (fun b => b.toNat)

/-- Environment of render_all_formats: the renderer, Rust's Unicode
char::is_alphanumeric table, the per-iteration formatted timestamp
(Utc::now().format("%Y%m%d_%H%M%S")) and the per-iteration elapsed
wall-clock duration. -/
structure RenderEnv where
  renderer : DocumentRenderer
  is_alphanumeric : Char → Bool
  clock_format : Nat → String
  elapsed_ms : Nat → Int

/-- The title sanitization inside render_all_formats: every character that
is not alphanumeric, '-' or '_' becomes '_'. -/
def sanitize_title (is_alphanumeric : Char → Bool) (title : String) : String :=
  ⟨title.data.map (fun c =>
    if is_alphanumeric c || c == '-' || c == '_' then c else '_')⟩

/-- The per-format match arm of render_all_formats: bytes, content type and
file extension for one format tag; an unknown tag is a hard error. -/
def render_one (r : DocumentRenderer) (template_content : String)
    (input_params : Json) (fmt : String) :
    Except String (List Nat × String × String) :=
  match fmt with
  | "pdf" =>
      match r.render_handlebars template_content input_params with
      | Except.error e => Except.error e
      | Except.ok html =>
          match r.html_to_pdf html with
          | Except.error e => Except.error e
          | Except.ok pdf => Except.ok (pdf, "application/pdf", "pdf")
  | "html" =>
      match r.render_handlebars template_content input_params with
      | Except.error e => Except.error e
      | Except.ok html =>
          Except.ok (strBytes html, "text/html; charset=utf-8", "html")
  | "markdown" =>
      match r.render_handlebars_markdown template_content input_params with
      | Except.error e => Except.error e
      | Except.ok md =>
          Except.ok (strBytes md, "text/markdown; charset=utf-8", "md")
  | other => Except.error ("Unsupported format: " ++ other)

/-- The loop body of render_all_formats, carrying the iteration index that
feeds the per-iteration clock and duration observations. -/
def render_formats_loop (env : RenderEnv) (template_content : String)
    (input_params : Json) (title : String) :
    List String → Nat → Except String (List Gcs.RenderedFile)
  | [], _ => Except.ok []
  | fmt :: rest, i =>
      match render_one env.renderer template_content input_params fmt with
      | Except.error e => Except.error e
      | Except.ok (data, content_type, ext) =>
          match render_formats_loop env template_content input_params title rest (i + 1) with
          | Except.error e => Except.error e
          | Except.ok files =>
              Except.ok
                ({ format := fmt
                   content_type := content_type
                   file_name := sanitize_title env.is_alphanumeric title ++ "_" ++
                     env.clock_format i ++ "." ++ ext
                   data := data
                   rendering_duration_ms := env.elapsed_ms i
                   page_count := none } :: files)

/-- DocumentPipeline::render_all_formats. -/
def render_all_formats (env : RenderEnv) (template_content : String)
    (input_params : Json) (formats : List String) (title : String) :
    Except String (List Gcs.RenderedFile) :=
  render_formats_loop env template_content input_params title formats 0

/-- Step 3 of DocumentPipeline::process: explicit-id lookup when a template
id is given, otherwise the (document_type, "pdf") default lookup; a miss
becomes the anyhow context message and is propagated with the ? operator. -/
def resolve_template (store : List Persistence.DocumentTemplate)
    (req : DocumentGenerationRequest) : Except String String :=
  match req.template_id with
  | some tid =>
      match Persistence.get_template store tid with
      | some tpl => Except.ok tpl.template_content
      | none => Except.error "Requested template not found"
  | none =>
      match Persistence.get_template_by_type store req.document_type "pdf" with
      | some tpl => Except.ok tpl.template_content
      | none => Except.error "No default template found for document type"

/-- Step 7 of DocumentPipeline::process: the generation-metadata JSON. -/
def generation_metadata_json (results : List Gcs.UploadResult)
    (completed_at : String) : Json :=
  Json.obj
    [("rendering_engine", Json.str "pandoc-xelatex"),
     ("template_engine", Json.str "handlebars"),
     ("formats_generated", Json.arr (results.map (fun r => Json.str r.format))),
     ("total_size_bytes", Json.num ((results.map (fun r => r.file_size)).sum)),
     ("completed_at", Json.str completed_at)]

/-- Environment of DocumentPipeline::process: the template rows visible
under the request's tenant context, the render environment, the storage
network, the database-assigned id, and clocks (DB-observed times indexed by
update call, plus the RFC3339 completion timestamp). -/
structure PipelineEnv where
  templates : List Persistence.DocumentTemplate
  render : RenderEnv
  net : Gcs.StorageNet
  new_doc_id : Int
  create_now : Nat
  db_clock : Nat → Nat
  rfc3339_now : String

/-- Observable outcome of one process call: the returned value, every
document-record state persisted along the way (in write order), and the
artifact rows inserted. -/
structure ProcessOutcome where
  result : Except String Persistence.GeneratedDocument
  doc_states : List Persistence.GeneratedDocument
  artifacts : List Persistence.CreateArtifactInput

/-- The CreateArtifactInput built from one UploadResult in step 6. -/
def artifact_row (tenant_id : String) (document_id : Int)
    (r : Gcs.UploadResult) : Persistence.CreateArtifactInput :=
  { tenant_id := tenant_id
    document_id := document_id
    format := r.format
    file_name := r.file_name
    gcs_path := r.gcs_path
    file_size := r.file_size
    content_type := r.content_type
    sha256_checksum := r.sha256_checksum
    page_count := r.page_count
    rendering_duration_ms := some r.rendering_duration_ms }

/-- DocumentPipeline::process: create 'queued' record, move to
'processing', resolve the template (a miss propagates an error with ?),
move to 'rendering' and render all formats (an error marks the job 'failed'
and returns Ok), move to 'uploading' and upload (same failure policy),
persist one artifact row per upload, then mark 'completed' with the
generation metadata. -/
def process (env : PipelineEnv) (req : DocumentGenerationRequest) :
    ProcessOutcome :=
  let doc0 := Persistence.create_document
    { tenant_id := req.tenant_id
      project_id := req.project_id
      template_id := req.template_id
      correlation_id := req.correlation_id
      title := req.title
      document_type := req.document_type
      requested_formats := req.requested_formats
      input_params := req.input_params
      requested_by := req.requested_by } env.new_doc_id env.create_now
  let doc1 := Persistence.update_document_status doc0 "processing" none none
    (env.db_clock 0)
  match resolve_template env.templates req with
  | Except.error e =>
      { result := Except.error e
        doc_states := [doc0, doc1]
        artifacts := [] }
  | Except.ok template_content =>
    let doc2 := Persistence.update_document_status doc1 "rendering" none none
      (env.db_clock 1)
    match render_all_formats env.render template_content req.input_params
        req.requested_formats req.title with
    | Except.error e =>
        let err_msg := "Rendering failed: " ++ e
        let failed := Persistence.update_document_status doc2 "failed"
          (some err_msg) none (env.db_clock 2)
        { result := Except.ok failed
          doc_states := [doc0, doc1, doc2, failed]
          artifacts := [] }
    | Except.ok rendered_files =>
      let doc3 := Persistence.update_document_status doc2 "uploading" none none
        (env.db_clock 2)
      match Gcs.upload_all_artifacts env.net req.tenant_id req.project_id
          doc0.id rendered_files with
      | Except.error e =>
          let err_msg := "GCS upload failed: " ++ e
          let failed := Persistence.update_document_status doc3 "failed"
            (some err_msg) none (env.db_clock 3)
          { result := Except.ok failed
            doc_states := [doc0, doc1, doc2, doc3, failed]
            artifacts := [] }
      | Except.ok upload_results =>
          let rows := upload_results.map (artifact_row req.tenant_id doc0.id)
          let gen_metadata := generation_metadata_json upload_results env.rfc3339_now
          let completed := Persistence.update_document_status doc3 "completed"
            none (some gen_metadata) (env.db_clock 3)
          { result := Except.ok completed
            doc_states := [doc0, doc1, doc2, doc3, completed]
            artifacts := rows }

end Pipeline

/-! ## src/models.rs: wire types of the generator-driven flow -/

namespace Models

/-- enum DocumentFormat. -/
inductive DocumentFormat where
  | PDF : DocumentFormat
  | Markdown : DocumentFormat
  | HTML : DocumentFormat
deriving DecidableEq

/-- enum SpecificationType. -/
inductive SpecificationType where
  | IEEE830DRD
  | IEEE830SRS
  | MilStd498SRS
  | ISO29148StakeholderRequirements
  | ISO29148SystemRequirements
  | ISO29148SoftwareRequirements
  | ISO29148ConceptOfOperations
  | SecurityScanReport
  | ComplianceAuditReport
  | TestExecutionReport
deriving DecidableEq

/-- struct DocumentMetadata. -/
structure DocumentMetadata where
  title : String
  project_name : String
  version : String
  author : String
  organization : String
  classification : Option String
  distribution_statement : Option String
  generated_date : Nat

/-- struct DocumentGenerationRequest (generator flow, src/models.rs). -/
structure DocumentGenerationRequest where
  specification_type : SpecificationType
  output_formats : List DocumentFormat
  data : Json
  metadata : DocumentMetadata

/-- struct GeneratedDocument (generator flow, src/models.rs). -/
structure GeneratedDocument where
  format : DocumentFormat
  content_base64 : String
  filename : String
  mime_type : String
  size_bytes : Nat
deriving DecidableEq

/-- struct DocumentGenerationResponse. -/
structure DocumentGenerationResponse where
  request_id : String
  status : String
  documents : List GeneratedDocument
  error : Option String
  generated_at : Nat

/-- DocumentGenerationResponse::success (generated_at is Utc::now()). -/
def successResponse (request_id : String) (documents : List GeneratedDocument)
    (now : Nat) : DocumentGenerationResponse :=
  { request_id := request_id
    status := "success"
    documents := documents
    error := none
    generated_at := now }

/-- DocumentGenerationResponse::error (generated_at is Utc::now()). -/
def errorResponse (request_id : String) (error : String) (now : Nat) :
    DocumentGenerationResponse :=
  { request_id := request_id
    status := "error"
    documents := []
    error := some error
    generated_at := now }

end Models

/-! ## src/generators/mod.rs and src/pubsub/handler.rs -/

namespace Handler

/-- The generator types create_generator can instantiate. -/
inductive GeneratorKind where
  | ieee830
  | iso29148_stakrs
  | iso29148_syrs
  | iso29148_srs
  | iso29148_conops
  | security_report
deriving DecidableEq

/-- Debug rendering of the unsupported SpecificationType variants, as used
in the InvalidSpecificationType error message. -/
def spec_type_debug : Models.SpecificationType → String
  | Models.SpecificationType.IEEE830DRD => "IEEE830DRD"
  | Models.SpecificationType.IEEE830SRS => "IEEE830SRS"
  | Models.SpecificationType.MilStd498SRS => "MilStd498SRS"
  | Models.SpecificationType.ISO29148StakeholderRequirements =>
      "ISO29148StakeholderRequirements"
  | Models.SpecificationType.ISO29148SystemRequirements =>
      "ISO29148SystemRequirements"
  | Models.SpecificationType.ISO29148SoftwareRequirements =>
      "ISO29148SoftwareRequirements"
  | Models.SpecificationType.ISO29148ConceptOfOperations =>
      "ISO29148ConceptOfOperations"
  | Models.SpecificationType.SecurityScanReport => "SecurityScanReport"
  | Models.SpecificationType.ComplianceAuditReport => "ComplianceAuditReport"
  | Models.SpecificationType.TestExecutionReport => "TestExecutionReport"

/-- generators::create_generator: the closed dispatch; MilStd498SRS,
ComplianceAuditReport and TestExecutionReport fall into the catch-all
InvalidSpecificationType error. -/
def create_generator (spec_type : Models.SpecificationType) :
    Except String GeneratorKind :=
  match spec_type with
  | Models.SpecificationType.IEEE830DRD => Except.ok GeneratorKind.ieee830
  | Models.SpecificationType.IEEE830SRS => Except.ok GeneratorKind.ieee830
  | Models.SpecificationType.ISO29148StakeholderRequirements =>
      Except.ok GeneratorKind.iso29148_stakrs
  | Models.SpecificationType.ISO29148SystemRequirements =>
      Except.ok GeneratorKind.iso29148_syrs
  | Models.SpecificationType.ISO29148SoftwareRequirements =>
      Except.ok GeneratorKind.iso29148_srs
  | Models.SpecificationType.ISO29148ConceptOfOperations =>
      Except.ok GeneratorKind.iso29148_conops
  | Models.SpecificationType.SecurityScanReport =>
      Except.ok GeneratorKind.security_report
  | other =>
      Except.error ("Invalid specification type: " ++ spec_type_debug other)

/-- One character of the standard base64 alphabet. -/
def base64Char (n : Nat) : Char :=
  if n < 26 then Char.ofNat (65 + n)
  else if n < 52 then Char.ofNat (97 + (n - 26))
  else if n < 62 then Char.ofNat (48 + (n - 52))
  else if n = 62 then '+'
  else '/'

/-- Standard base64 with padding (base64::engine::general_purpose::STANDARD). -/
def base64Chars : List Nat → List Char
  | [] => []
  | [b0] =>
      [base64Char (b0 >>> 2), base64Char ((b0 &&& 3) <<< 4), '=', '=']
  | [b0, b1] =>
      [base64Char (b0 >>> 2), base64Char (((b0 &&& 3) <<< 4) ||| (b1 >>> 4)),
       base64Char ((b1 &&& 15) <<< 2), '=']
  | b0 :: b1 :: b2 :: rest =>
      base64Char (b0 >>> 2) ::
      base64Char (((b0 &&& 3) <<< 4) ||| (b1 >>> 4)) ::
      base64Char (((b1 &&& 15) <<< 2) ||| (b2 >>> 6)) ::
      base64Char (b2 &&& 63) :: base64Chars rest

def base64Encode (bytes : List Nat) : String := ⟨base64Chars bytes⟩

/-- str::replace(' ', "-") as used in render_document: the pattern and the
replacement are single characters, so the call replaces each space
character with a hyphen. -/
def replace_space_hyphen (s : String) : String :=
  ⟨s.data.map (fun c => if c == ' ' then '-' else c)⟩

/-- Character-wise ASCII lowercasing: the restriction of Rust's Unicode
str::to_lowercase to the ASCII titles used in concrete evaluations. -/
def ascii_lowercase (s : String) : String := ⟨s.data.map Char.toLower⟩

/-- Environment of MessageHandler::handle_message: JSON decoding of the
payload (serde_json::from_slice), UUID generation (uuid::Uuid::new_v4),
the external generators and Pandoc-backed renderers, Unicode lowercasing
(str::to_lowercase) and the clock. -/
structure HandlerEnv where
  decode : List Nat → Except String Models.DocumentGenerationRequest
  gen_request_id : String
  generate : GeneratorKind → Json → Models.DocumentMetadata → Except String String
  pdf_render : String → Models.DocumentMetadata → Except String (List Nat)
  markdown_render : String → Models.DocumentMetadata → Except String (List Nat)
  html_render : String → Models.DocumentMetadata → Except String (List Nat)
  lowercase : String → String
  now : Nat

/-- MessageHandler::render_document: render one format and build the
GeneratedDocument; the file name is the lowercased title with spaces
replaced by hyphens, "-v", the version, and the extension. -/
def render_document (env : HandlerEnv) (format : Models.DocumentFormat)
    (markdown_content : String) (metadata : Models.DocumentMetadata) :
    Except String Models.GeneratedDocument :=
  let rendered : Except String (List Nat × String × String) :=
    match format with
    | Models.DocumentFormat.PDF =>
        match env.pdf_render markdown_content metadata with
        | Except.error e => Except.error e
        | Except.ok bytes => Except.ok (bytes, "application/pdf", "pdf")
    | Models.DocumentFormat.Markdown =>
        match env.markdown_render markdown_content metadata with
        | Except.error e => Except.error e
        | Except.ok bytes => Except.ok (bytes, "text/markdown", "md")
    | Models.DocumentFormat.HTML =>
        match env.html_render markdown_content metadata with
        | Except.error e => Except.error e
        | Except.ok bytes => Except.ok (bytes, "text/html", "html")
  match rendered with
  | Except.error e => Except.error e
  | Except.ok (content_bytes, mime_type, ext) =>
      Except.ok
        { format := format
          content_base64 := base64Encode content_bytes
          filename := replace_space_hyphen (env.lowercase metadata.title) ++
            "-v" ++ metadata.version ++ "." ++ ext
          mime_type := mime_type
          size_bytes := content_bytes.length }

/-- The per-format loop in handle_message: a failed format is logged and
skipped, rendering continues with the remaining formats. -/
def render_formats (env : HandlerEnv) (markdown_content : String)
    (metadata : Models.DocumentMetadata) :
    List Models.DocumentFormat → List Models.GeneratedDocument
  | [] => []
  | fmt :: rest =>
      match render_document env fmt markdown_content metadata with
      | Except.ok doc => doc :: render_formats env markdown_content metadata rest
      | Except.error _ => render_formats env markdown_content metadata rest

/-- MessageHandler::handle_message: an undecodable payload yields an error
response keyed by the fixed string "unknown"; otherwise a fresh request id
is generated, content is generated once, each requested format is rendered
with per-format continue-on-error, and an empty result list becomes an
error response. -/
def handle_message (env : HandlerEnv) (data : List Nat) :
    Models.DocumentGenerationResponse :=
  match env.decode data with
  | Except.error e =>
      Models.errorResponse "unknown" ("Invalid request format: " ++ e) env.now
  | Except.ok request =>
      let request_id := env.gen_request_id
      match create_generator request.specification_type with
      | Except.error e => Models.errorResponse request_id e env.now
      | Except.ok gen =>
          match env.generate gen request.data request.metadata with
          | Except.error e => Models.errorResponse request_id e env.now
          | Except.ok markdown_content =>
              let documents :=
                render_formats env markdown_content request.metadata
                  request.output_formats
              if documents.isEmpty then
                Models.errorResponse request_id
                  "Failed to generate documents in any requested format" env.now
              else
                Models.successResponse request_id documents env.now

end Handler

/-! ## src/pubsub/publisher.rs and src/main.rs: outbound events and the
message consumption loop -/

namespace MainLoop

/-- What Publisher::publish_response leaves behind: it returns unit in
every case, so the only observable distinction is which log line ran. -/
inductive PublishOutcome where
  | serialize_failed (e : String)
  | publish_failed (request_id : String) (e : String)
  | published (request_id : String) (status : String) (message_id : String)

/-- Publisher::publish_response: a serialization failure logs and returns,
a broker failure logs and returns, success logs the broker message id; no
case propagates an error to the caller. -/
def publish_response (response : Models.DocumentGenerationResponse)
    (ser : Except String (List Nat)) (broker : Except String String) :
    PublishOutcome :=
  match ser with
  | Except.error e => PublishOutcome.serialize_failed e
  | Except.ok _ =>
      match broker with
      | Except.error e => PublishOutcome.publish_failed response.request_id e
      | Except.ok message_id =>
          PublishOutcome.published response.request_id response.status message_id

/-- Observable steps of the per-message receive callback. -/
inductive Action where
  | processed (response : Models.DocumentGenerationResponse)
  | published (outcome : PublishOutcome)
  | acked (ok : Bool)

/-- External outcomes of one delivery: response serialization, the broker
publish call, and the ack call. -/
structure DeliveryEnv where
  ser : Except String (List Nat)
  broker : Except String String
  ack : Except String Unit

/-- The receive callback in process_messages: if the cancellation token
fired, return without processing; otherwise handle the message, publish the
response, then acknowledge (an ack failure is only logged). -/
def handle_delivery (cancelled : Bool) (henv : Handler.HandlerEnv)
    (denv : DeliveryEnv) (data : List Nat) : List Action :=
  if cancelled then []
  else
    let response := Handler.handle_message henv data
    [Action.processed response,
     Action.published (publish_response response denv.ser denv.broker),
     Action.acked denv.ack.isOk]

/-- The admission decision process_messages applies per delivered message.
The _max_concurrent parameter (src/main.rs line 117) is bound but never
read anywhere in the function; the only per-message check in the receive
callback is the cancellation token, so every delivery while the loop is
running is dispatched. -/
def admit_delivery (_max_concurrent : Nat) (cancelled : Bool) : Bool :=
  !cancelled

/-- Scheduling events of the consumption loop: a broker delivery or the
completion of a previously dispatched per-message task. -/
inductive LoopEvent where
  | deliver
  | complete

/-- In-flight task count evolution of the running (uncancelled) loop: each
delivery is admitted by admit_delivery, each completion retires a task. -/
def in_flight_step (max_concurrent : Nat) (n : Nat) : LoopEvent → Nat
  | LoopEvent.deliver => if admit_delivery max_concurrent false then n + 1 else n
  | LoopEvent.complete => n - 1

/-- In-flight task count after a sequence of scheduling events. -/
def in_flight_after (max_concurrent : Nat) (events : List LoopEvent) : Nat :=
  events.foldl (in_flight_step max_concurrent) 0

end MainLoop

/-! ## Lifecycle-field invariant (claim about §4.1 / §8) -/

/-- The statuses at or after 'processing' in the fixed lifecycle ordering. -/
def status_reached_processing (s : String) : Prop :=
  s = "processing" ∨ s = "rendering" ∨ s = "uploading" ∨
    s = "completed" ∨ s = "failed"

/-- The three lifecycle-field iff-invariants of a job record. -/
def record_invariant (d : Persistence.GeneratedDocument) : Prop :=
  (d.completed_at ≠ none ↔ (d.status = "completed" ∨ d.status = "failed")) ∧
  (d.started_at ≠ none ↔ status_reached_processing d.status) ∧
  (d.error_message ≠ none ↔ d.status = "failed")

/-- C3: all three iff-invariants hold for every record state the
orchestrator's process operation persists, on every path (template miss,
render failure, upload failure, success) and for every environment. -/
theorem c3_record_invariant (env : Pipeline.PipelineEnv)
    (req : Pipeline.DocumentGenerationRequest) :
    ∀ d ∈ (Pipeline.process env req).doc_states, record_invariant d := by
  intro d hd
  unfold Pipeline.process at hd
  cases hres : Pipeline.resolve_template env.templates req with
  | error e =>
    simp only [hres] at hd
    simp only [List.mem_cons, List.not_mem_nil, or_false] at hd
    rcases hd with h | h <;> subst h <;>
      simp [record_invariant, status_reached_processing,
        Persistence.create_document, Persistence.update_document_status, coalesce]
  | ok tpl =>
    cases hren : Pipeline.render_all_formats env.render tpl req.input_params
        req.requested_formats req.title with
    | error e =>
      simp only [hres, hren] at hd
      simp only [List.mem_cons, List.not_mem_nil, or_false] at hd
      rcases hd with h | h | h | h <;> subst h <;>
        simp [record_invariant, status_reached_processing,
          Persistence.create_document, Persistence.update_document_status, coalesce]
    | ok files =>
      cases hup : Gcs.upload_all_artifacts env.net req.tenant_id req.project_id
          env.new_doc_id files with
      | error e =>
        simp only [hres, hren] at hd
        rw [show (Persistence.create_document
          { tenant_id := req.tenant_id, project_id := req.project_id,
            template_id := req.template_id, correlation_id := req.correlation_id,
            title := req.title, document_type := req.document_type,
            requested_formats := req.requested_formats,
            input_params := req.input_params,
            requested_by := req.requested_by } env.new_doc_id env.create_now).id
          = env.new_doc_id from rfl, hup] at hd
        simp only [List.mem_cons, List.not_mem_nil, or_false] at hd
        rcases hd with h | h | h | h | h <;> subst h <;>
          simp [record_invariant, status_reached_processing,
            Persistence.create_document, Persistence.update_document_status, coalesce]
      | ok results =>
        simp only [hres, hren] at hd
        rw [show (Persistence.create_document
          { tenant_id := req.tenant_id, project_id := req.project_id,
            template_id := req.template_id, correlation_id := req.correlation_id,
            title := req.title, document_type := req.document_type,
            requested_formats := req.requested_formats,
            input_params := req.input_params,
            requested_by := req.requested_by } env.new_doc_id env.create_now).id
          = env.new_doc_id from rfl, hup] at hd
        simp only [List.mem_cons, List.not_mem_nil, or_false] at hd
        rcases hd with h | h | h | h | h <;> subst h <;>
          simp [record_invariant, status_reached_processing,
            Persistence.create_document, Persistence.update_document_status, coalesce]

/-- Request for the C3 witness. -/
def c3_req : Pipeline.DocumentGenerationRequest :=
  { tenant_id := "tenant-a"
    project_id := 7
    template_id := none
    correlation_id := none
    title := "Alpha Spec"
    document_type := "srs"
    requested_formats := ["markdown"]
    input_params := Json.null
    requested_by := 3 }

/-- Environment for the C3 witness. -/
def c3_env : Pipeline.PipelineEnv :=
  { templates := []
    render :=
      { renderer :=
          { render_handlebars := fun _ _ => Except.ok "<h1>ok</h1>"
            render_handlebars_markdown := fun _ _ => Except.ok "# ok"
            html_to_pdf := fun _ => Except.ok [37, 80, 68, 70] }
        is_alphanumeric := Char.isAlphanum
        clock_format := fun _ => "20260101_000000"
        elapsed_ms := fun _ => 5 }
    net := { upload_object := fun _ _ _ => Except.ok () }
    new_doc_id := 103
    create_now := 20
    db_clock := fun i => 21 + i
    rfc3339_now := "2026-01-01T00:00:00+00:00" }

/-- The queued record the C3 witness inspects: the first record state
process persists for c3_req. -/
def c3_queued : Persistence.GeneratedDocument :=
  Persistence.create_document
    { tenant_id := c3_req.tenant_id
      project_id := c3_req.project_id
      template_id := c3_req.template_id
      correlation_id := c3_req.correlation_id
      title := c3_req.title
      document_type := c3_req.document_type
      requested_formats := c3_req.requested_formats
      input_params := c3_req.input_params
      requested_by := c3_req.requested_by } c3_env.new_doc_id c3_env.create_now

/-- C3 witness: the invariant theorem applied to a concrete persisted
record state. -/
theorem c3_witness :
    c3_queued ∈ (Pipeline.process c3_env c3_req).doc_states ∧
    record_invariant c3_queued :=
  ⟨List.mem_cons_self _ _,
   c3_record_invariant c3_env c3_req c3_queued (List.mem_cons_self _ _)⟩

/-! ## C1: behavior of process on template-resolution failure -/

/-- A renderer stub for concrete evaluations. -/
def fixture_renderer : Pipeline.DocumentRenderer :=
  { render_handlebars := fun _ _ => Except.ok "<h1>ok</h1>"
    render_handlebars_markdown := fun _ _ => Except.ok "# ok"
    html_to_pdf := fun _ => Except.ok [37, 80, 68, 70] }

/-- A render environment stub for concrete evaluations. -/
def fixture_render_env : Pipeline.RenderEnv :=
  { renderer := fixture_renderer
    is_alphanumeric := Char.isAlphanum
    clock_format := fun _ => "20260101_000000"
    elapsed_ms := fun _ => 5 }

/-- Pipeline environment with an empty template table. -/
def c1_env : Pipeline.PipelineEnv :=
  { templates := []
    render := fixture_render_env
    net := { upload_object := fun _ _ _ => Except.ok () }
    new_doc_id := 101
    create_now := 10
    db_clock := fun i => 11 + i
    rfc3339_now := "2026-01-01T00:00:00+00:00" }

/-- Request with no explicit template id, for a type with no default. -/
def c1_req : Pipeline.DocumentGenerationRequest :=
  { tenant_id := "tenant-a"
    project_id := 7
    template_id := none
    correlation_id := none
    title := "Alpha Spec"
    document_type := "srs"
    requested_formats := ["markdown", "html"]
    input_params := Json.null
    requested_by := 3 }

/-- C1 counterexample: with no matching default template, process does not
return Ok with a failed record; it returns an error and the persisted
record states are only 'queued' then 'processing' (never 'failed'). -/
theorem c1_counterexample :
    (Pipeline.process c1_env c1_req).result.isOk = false ∧
    ((Pipeline.process c1_env c1_req).doc_states.map (fun d => d.status)) =
      ["queued", "processing"] := by
  constructor <;> rfl

/-- C1 amended: a template-resolution failure is propagated to the caller
as an error (so the message is not acknowledged and may be redelivered);
the job record is left in status 'processing', is never transitioned to
'failed', and no artifact rows are persisted. -/
theorem c1_template_miss_propagates (env : Pipeline.PipelineEnv)
    (req : Pipeline.DocumentGenerationRequest) (e : String)
    (h : Pipeline.resolve_template env.templates req = Except.error e) :
    (Pipeline.process env req).result = Except.error e ∧
    ((Pipeline.process env req).doc_states.map (fun d => d.status)) =
      ["queued", "processing"] ∧
    (Pipeline.process env req).artifacts = [] := by
  unfold Pipeline.process
  simp [h, Persistence.create_document, Persistence.update_document_status]

/-- C1 witness: the amended theorem applied at the concrete environment. -/
theorem c1_witness :
    Pipeline.resolve_template c1_env.templates c1_req =
      Except.error "No default template found for document type" ∧
    (Pipeline.process c1_env c1_req).result =
      Except.error "No default template found for document type" :=
  ⟨rfl, (c1_template_miss_propagates c1_env c1_req _ rfl).1⟩

/-! ## C2: all-or-nothing failure of rendering/uploading -/

/-- If any requested format fails to render, the whole render loop fails
(the loop propagates the first render error). -/
theorem render_loop_error_of_mem (env : Pipeline.RenderEnv)
    (tpl : String) (params : Json) (title : String) :
    ∀ (formats : List String) (i : Nat) (fmt : String), fmt ∈ formats →
    (∃ e, Pipeline.render_one env.renderer tpl params fmt = Except.error e) →
    ∃ e, Pipeline.render_formats_loop env tpl params title formats i =
      Except.error e := by
  intro formats
  induction formats with
  | nil => intro i fmt h; simp at h
  | cons f rest ih =>
    intro i fmt hmem ⟨e, he⟩
    rcases List.mem_cons.mp hmem with hf | hrest
    · subst hf
      exact ⟨e, by simp [Pipeline.render_formats_loop, he]⟩
    · cases h1 : Pipeline.render_one env.renderer tpl params f with
      | error e1 => exact ⟨e1, by simp [Pipeline.render_formats_loop, h1]⟩
      | ok v =>
        obtain ⟨e2, he2⟩ := ih (i + 1) fmt hrest ⟨e, he⟩
        refine ⟨e2, ?_⟩
        simp [Pipeline.render_formats_loop, h1, he2]

/-- If the network upload of any rendered file fails, the whole upload loop
fails (the loop propagates the first upload error). -/
theorem upload_all_error_of_mem (net : Gcs.StorageNet) (t : String)
    (p d : Int) :
    ∀ (files : List Gcs.RenderedFile) (file : Gcs.RenderedFile),
    file ∈ files →
    (∃ e, net.upload_object Gcs.BUCKET
      (Gcs.object_path t p d file.file_name) file.data = Except.error e) →
    ∃ e, Gcs.upload_all_artifacts net t p d files = Except.error e := by
  intro files
  induction files with
  | nil => intro file h; simp at h
  | cons f rest ih =>
    intro file hmem ⟨e, he⟩
    rcases List.mem_cons.mp hmem with hf | hrest
    · subst hf
      refine ⟨"Failed to upload " ++ file.file_name ++ " to GCS path " ++
        Gcs.object_path t p d file.file_name ++ ": " ++ e, ?_⟩
      simp [Gcs.upload_all_artifacts, Gcs.upload_artifact, he]
    · cases h1 : Gcs.upload_artifact net t p d f with
      | error e1 => exact ⟨e1, by simp [Gcs.upload_all_artifacts, h1]⟩
      | ok r =>
        obtain ⟨e2, he2⟩ := ih file hrest ⟨e, he⟩
        refine ⟨e2, ?_⟩
        simp [Gcs.upload_all_artifacts, h1, he2]

/-- C2: with at least two requested formats, a render or upload failure for
any single format fails the entire job: process returns Ok carrying a
record in status 'failed' with the error captured in error_message, and
zero artifact rows are persisted. -/
theorem c2_all_or_nothing (env : Pipeline.PipelineEnv)
    (req : Pipeline.DocumentGenerationRequest) (tpl : String)
    (_hlen : 2 ≤ req.requested_formats.length)
    (hres : Pipeline.resolve_template env.templates req = Except.ok tpl)
    (hfail :
      (∃ fmt ∈ req.requested_formats, ∃ e,
        Pipeline.render_one env.render.renderer tpl req.input_params fmt =
          Except.error e) ∨
      (∃ files, Pipeline.render_all_formats env.render tpl req.input_params
          req.requested_formats req.title = Except.ok files ∧
        ∃ file ∈ files, ∃ e, env.net.upload_object Gcs.BUCKET
          (Gcs.object_path req.tenant_id req.project_id env.new_doc_id
            file.file_name) file.data = Except.error e)) :
    ∃ d, (Pipeline.process env req).result = Except.ok d ∧
      d.status = "failed" ∧
      (∃ e, d.error_message = some ("Rendering failed: " ++ e) ∨
            d.error_message = some ("GCS upload failed: " ++ e)) ∧
      (Pipeline.process env req).artifacts = [] := by
  rcases hfail with ⟨fmt, hmem, hone⟩ | ⟨files, hok, file, hmem, hup⟩
  · obtain ⟨e, he⟩ := render_loop_error_of_mem env.render tpl req.input_params
      req.title req.requested_formats 0 fmt hmem hone
    unfold Pipeline.process
    simp only [hres, Pipeline.render_all_formats] at *
    rw [he]
    simp [Persistence.update_document_status, coalesce]
    exact ⟨e, Or.inl rfl⟩
  · obtain ⟨e, he⟩ := upload_all_error_of_mem env.net req.tenant_id
      req.project_id env.new_doc_id files file hmem hup
    unfold Pipeline.process
    simp only [hres]
    rw [show (Persistence.create_document
      { tenant_id := req.tenant_id, project_id := req.project_id,
        template_id := req.template_id, correlation_id := req.correlation_id,
        title := req.title, document_type := req.document_type,
        requested_formats := req.requested_formats,
        input_params := req.input_params,
        requested_by := req.requested_by } env.new_doc_id env.create_now).id
      = env.new_doc_id from rfl]
    simp only [hok]
    rw [he]
    simp [Persistence.update_document_status, coalesce]
    exact ⟨e, Or.inr rfl⟩

/-- An active system template for (srs, pdf). -/
def c2_template : Persistence.DocumentTemplate :=
  { id := 1
    tenant_id := "tenant-a"
    name := "Default SRS"
    description := none
    template_type := "srs"
    format := "pdf"
    template_content := "TPL"
    schema_version := "1.0"
    is_system := true
    is_active := true
    created_by := 1
    created_at := 1
    updated_at := 2 }

/-- A renderer whose Handlebars expansion fails. -/
def c2_renderer : Pipeline.DocumentRenderer :=
  { render_handlebars := fun _ _ => Except.error "handlebars broken"
    render_handlebars_markdown := fun _ _ => Except.ok "# ok"
    html_to_pdf := fun _ => Except.ok [37, 80, 68, 70] }

/-- Pipeline environment whose renderer fails for the pdf format. -/
def c2_env : Pipeline.PipelineEnv :=
  { templates := [c2_template]
    render :=
      { renderer := c2_renderer
        is_alphanumeric := Char.isAlphanum
        clock_format := fun _ => "20260101_000000"
        elapsed_ms := fun _ => 5 }
    net := { upload_object := fun _ _ _ => Except.ok () }
    new_doc_id := 102
    create_now := 10
    db_clock := fun i => 11 + i
    rfc3339_now := "2026-01-01T00:00:00+00:00" }

/-- Request for two formats, the first of which will fail to render. -/
def c2_req : Pipeline.DocumentGenerationRequest :=
  { tenant_id := "tenant-a"
    project_id := 7
    template_id := some 1
    correlation_id := none
    title := "Alpha Spec"
    document_type := "srs"
    requested_formats := ["pdf", "html"]
    input_params := Json.null
    requested_by := 3 }

/-- C2 witness: two requested formats, the pdf render fails, and the whole
job is the failed record with zero artifact rows. -/
theorem c2_witness :
    2 ≤ c2_req.requested_formats.length ∧
    (∃ d, (Pipeline.process c2_env c2_req).result = Except.ok d ∧
      d.status = "failed" ∧
      (∃ e, d.error_message = some ("Rendering failed: " ++ e) ∨
            d.error_message = some ("GCS upload failed: " ++ e)) ∧
      (Pipeline.process c2_env c2_req).artifacts = []) :=
  ⟨by decide,
   c2_all_or_nothing c2_env c2_req "TPL" (by decide) rfl
     (Or.inl ⟨"pdf", by decide, "handlebars broken", rfl⟩)⟩

/-! ## C10: a job with an empty requested_formats list -/

/-- C10: when no formats are requested and template resolution succeeds,
process renders and uploads nothing, persists zero artifact rows, and
completes the job with metadata listing no formats and zero total bytes. -/
theorem c10_empty_formats (env : Pipeline.PipelineEnv)
    (req : Pipeline.DocumentGenerationRequest) (tpl : String)
    (hfmt : req.requested_formats = [])
    (hres : Pipeline.resolve_template env.templates req = Except.ok tpl) :
    ∃ d, (Pipeline.process env req).result = Except.ok d ∧
      d.status = "completed" ∧
      d.error_message = none ∧
      d.generation_metadata = some (Json.obj
        [("rendering_engine", Json.str "pandoc-xelatex"),
         ("template_engine", Json.str "handlebars"),
         ("formats_generated", Json.arr []),
         ("total_size_bytes", Json.num 0),
         ("completed_at", Json.str env.rfc3339_now)]) ∧
      (Pipeline.process env req).artifacts = [] := by
  unfold Pipeline.process
  simp only [hres, hfmt]
  simp [Pipeline.render_all_formats, Pipeline.render_formats_loop,
    Gcs.upload_all_artifacts, Pipeline.generation_metadata_json,
    Persistence.update_document_status, Persistence.create_document, coalesce]

/-- Environment for the C10 witness: a default template exists for
(srs, pdf); the request asks for no formats. -/
def c10_env : Pipeline.PipelineEnv :=
  { templates := [c2_template]
    render := fixture_render_env
    net := { upload_object := fun _ _ _ => Except.ok () }
    new_doc_id := 110
    create_now := 10
    db_clock := fun i => 11 + i
    rfc3339_now := "2026-01-01T00:00:00+00:00" }

/-- Request with an empty requested_formats list. -/
def c10_req : Pipeline.DocumentGenerationRequest :=
  { tenant_id := "tenant-a"
    project_id := 7
    template_id := none
    correlation_id := none
    title := "Alpha Spec"
    document_type := "srs"
    requested_formats := []
    input_params := Json.null
    requested_by := 3 }

/-- C10 witness: the empty-formats theorem applied at a concrete
environment whose template table does resolve the request. -/
theorem c10_witness :
    c10_req.requested_formats = [] ∧
    (∃ d, (Pipeline.process c10_env c10_req).result = Except.ok d ∧
      d.status = "completed" ∧
      d.error_message = none ∧
      d.generation_metadata = some (Json.obj
        [("rendering_engine", Json.str "pandoc-xelatex"),
         ("template_engine", Json.str "handlebars"),
         ("formats_generated", Json.arr []),
         ("total_size_bytes", Json.num 0),
         ("completed_at", Json.str c10_env.rfc3339_now)]) ∧
      (Pipeline.process c10_env c10_req).artifacts = []) :=
  ⟨rfl, c10_empty_formats c10_env c10_req "TPL" rfl rfl⟩

/-! ## C4: template resolution order -/

/-- tpl_before never holds reflexively. -/
theorem tpl_before_irrefl (a : Persistence.DocumentTemplate) :
    Persistence.tpl_before a a = false := by
  simp [Persistence.tpl_before]

/-- tpl_before is transitive. -/
theorem tpl_before_trans {a b c : Persistence.DocumentTemplate}
    (h1 : Persistence.tpl_before a b = true)
    (h2 : Persistence.tpl_before b c = true) :
    Persistence.tpl_before a c = true := by
  simp only [Persistence.tpl_before, Bool.or_eq_true, Bool.and_eq_true,
    decide_eq_true_eq] at h1 h2 ⊢
  omega

/-- The complement of tpl_before is transitive (it is a total preorder). -/
theorem tpl_before_neg_trans {a b c : Persistence.DocumentTemplate}
    (h1 : Persistence.tpl_before a b = false)
    (h2 : Persistence.tpl_before b c = false) :
    Persistence.tpl_before a c = false := by
  simp only [Persistence.tpl_before, Bool.or_eq_false_iff,
    Bool.and_eq_false_iff, decide_eq_false_iff_not, not_lt] at h1 h2 ⊢
  omega

/-- The pick_first fold over a list, started at some b, yields an element
of the list (or b itself) that no element of the list, nor b, sorts
strictly before. -/
theorem pick_first_min (l : List Persistence.DocumentTemplate) :
    ∀ b : Persistence.DocumentTemplate,
    ∃ t, l.foldl Persistence.pick_first (some b) = some t ∧
      (t = b ∨ t ∈ l) ∧ Persistence.tpl_before b t = false ∧
      ∀ u ∈ l, Persistence.tpl_before u t = false := by
  induction l with
  | nil =>
    intro b
    exact ⟨b, rfl, Or.inl rfl, tpl_before_irrefl b, by simp⟩
  | cons x xs ih =>
    intro b
    by_cases hx : Persistence.tpl_before x b = true
    · obtain ⟨t, hfold, hmem, hxt, hall⟩ := ih x
      have hstep : Persistence.pick_first (some b) x = some x := by
        simp [Persistence.pick_first, hx]
      refine ⟨t, ?_, ?_, ?_, ?_⟩
      · simpa [List.foldl_cons, hstep] using hfold
      · rcases hmem with h | h
        · exact Or.inr (h ▸ List.mem_cons_self x xs)
        · exact Or.inr (List.mem_cons_of_mem x h)
      · cases hbt : Persistence.tpl_before b t with
        | false => rfl
        | true => exact absurd (tpl_before_trans hx hbt) (by simp [hxt])
      · intro u hu
        rcases List.mem_cons.mp hu with h | h
        · exact h ▸ hxt
        · exact hall u h
    · have hx' : Persistence.tpl_before x b = false := by
        cases h : Persistence.tpl_before x b
        · rfl
        · exact absurd h hx
      obtain ⟨t, hfold, hmem, hbt, hall⟩ := ih b
      have hstep : Persistence.pick_first (some b) x = some b := by
        simp [Persistence.pick_first, hx']
      refine ⟨t, ?_, ?_, hbt, ?_⟩
      · simpa [List.foldl_cons, hstep] using hfold
      · rcases hmem with h | h
        · exact Or.inl h
        · exact Or.inr (List.mem_cons_of_mem x h)
      · intro u hu
        rcases List.mem_cons.mp hu with h | h
        · exact h ▸ tpl_before_neg_trans hx' hbt
        · exact hall u h

/-- C4 (amended): an explicit template id resolves through the id lookup
alone with no type+format fallback; with no id, the fallback returns an
active template matching (document_type, pdf) that is optimal under ORDER
BY is_system ASC, updated_at DESC (user templates are preferred over
system templates, and within the same provenance the most recently updated
wins), and some matching template is returned whenever one exists. -/
theorem c4_template_resolution (store : List Persistence.DocumentTemplate) :
    (∀ (req : Pipeline.DocumentGenerationRequest) tid tpl,
      req.template_id = some tid →
      Persistence.get_template store tid = some tpl →
      Pipeline.resolve_template store req = Except.ok tpl.template_content) ∧
    (∀ ttype fmt t, Persistence.get_template_by_type store ttype fmt = some t →
      Persistence.tpl_matches ttype fmt t = true ∧ t ∈ store ∧
      ∀ u ∈ store, Persistence.tpl_matches ttype fmt u = true →
        Persistence.tpl_before u t = false) ∧
    (∀ ttype fmt u, u ∈ store → Persistence.tpl_matches ttype fmt u = true →
      ∃ t, Persistence.get_template_by_type store ttype fmt = some t) := by
  refine ⟨?_, ?_, ?_⟩
  · intro req tid tpl hid hget
    simp [Pipeline.resolve_template, hid, hget]
  · intro ttype fmt t hres
    unfold Persistence.get_template_by_type at hres
    cases hfil : store.filter (Persistence.tpl_matches ttype fmt) with
    | nil => rw [hfil] at hres; simp at hres
    | cons x xs =>
      rw [hfil] at hres
      obtain ⟨t', hfold, hmem, hxt, hall⟩ := pick_first_min xs x
      rw [show (x :: xs).foldl Persistence.pick_first none =
        xs.foldl Persistence.pick_first (some x) from rfl] at hres
      rw [hfold] at hres
      cases hres
      have htin : t ∈ store.filter (Persistence.tpl_matches ttype fmt) := by
        rw [hfil]
        rcases hmem with h | h
        · exact h ▸ List.mem_cons_self x xs
        · exact List.mem_cons_of_mem x h
      refine ⟨(List.mem_filter.mp htin).2, (List.mem_filter.mp htin).1, ?_⟩
      intro u hu hmatch
      have huin : u ∈ store.filter (Persistence.tpl_matches ttype fmt) :=
        List.mem_filter.mpr ⟨hu, hmatch⟩
      rw [hfil] at huin
      rcases List.mem_cons.mp huin with h | h
      · exact h ▸ hxt
      · exact hall u h
  · intro ttype fmt u hu hmatch
    unfold Persistence.get_template_by_type
    cases hfil : store.filter (Persistence.tpl_matches ttype fmt) with
    | nil =>
      have : u ∈ store.filter (Persistence.tpl_matches ttype fmt) :=
        List.mem_filter.mpr ⟨hu, hmatch⟩
      rw [hfil] at this
      simp at this
    | cons x xs =>
      obtain ⟨t', hfold, _, _, _⟩ := pick_first_min xs x
      exact ⟨t', by
        rw [show (x :: xs).foldl Persistence.pick_first none =
          xs.foldl Persistence.pick_first (some x) from rfl]
        exact hfold⟩

/-- The non-system template of the C4 store: less recently updated. -/
def c4_user_template : Persistence.DocumentTemplate :=
  { id := 1
    tenant_id := "tenant-a"
    name := "User SRS"
    description := none
    template_type := "srs"
    format := "pdf"
    template_content := "USER"
    schema_version := "1.0"
    is_system := false
    is_active := true
    created_by := 9
    created_at := 1
    updated_at := 5 }

/-- The system template of the C4 store: more recently updated. -/
def c4_sys_template : Persistence.DocumentTemplate :=
  { id := 2
    tenant_id := "tenant-a"
    name := "System SRS"
    description := none
    template_type := "srs"
    format := "pdf"
    template_content := "SYS"
    schema_version := "1.0"
    is_system := true
    is_active := true
    created_by := 1
    created_at := 1
    updated_at := 10 }

/-- The active template id 42 used by the C4 witness. -/
def c4_explicit_template : Persistence.DocumentTemplate :=
  { id := 42
    tenant_id := "tenant-a"
    name := "Explicit"
    description := none
    template_type := "other"
    format := "pdf"
    template_content := "EXPLICIT"
    schema_version := "1.0"
    is_system := false
    is_active := true
    created_by := 9
    created_at := 1
    updated_at := 1 }

/-- Template table with a user template older than a system template. -/
def c4_store : List Persistence.DocumentTemplate :=
  [c4_user_template, c4_sys_template, c4_explicit_template]

/-- C4 counterexample: the fallback returns the user template (id 1) even
though the system template (id 2) also matches, is active, and is more
recently updated — so the fallback does not select the most recently
updated active template among both system and user templates. -/
theorem c4_counterexample :
    (Persistence.get_template_by_type c4_store "srs" "pdf").map
      (fun t => t.id) = some 1 ∧
    Persistence.tpl_matches "srs" "pdf" c4_sys_template = true ∧
    c4_sys_template ∈ c4_store ∧
    (Persistence.get_template_by_type c4_store "srs" "pdf").map
      (fun t => t.updated_at) = some 5 ∧
    c4_user_template.updated_at < c4_sys_template.updated_at := by
  decide

/-- Request naming template id 42 explicitly. -/
def c4_req42 : Pipeline.DocumentGenerationRequest :=
  { tenant_id := "tenant-a"
    project_id := 7
    template_id := some 42
    correlation_id := none
    title := "Alpha Spec"
    document_type := "srs"
    requested_formats := ["pdf"]
    input_params := Json.null
    requested_by := 3 }

/-- C4 witness: template id 42 exists and is active, and resolution
returns its content (not the (srs, pdf) fallback content). -/
theorem c4_witness :
    Persistence.get_template c4_store 42 = some c4_explicit_template ∧
    Pipeline.resolve_template c4_store c4_req42 = Except.ok "EXPLICIT" :=
  ⟨by decide,
   (c4_template_resolution c4_store).1 c4_req42 42 c4_explicit_template rfl
     (by decide)⟩

/-! ## C5: artifact checksums -/

set_option maxRecDepth 40000 in
/-- Known SHA-256 digest of the empty message, as a sanity check of the
hash embedding. -/
theorem sha256_empty_vector :
    hexEncode (SHA256.sha256 []) =
      "e3b0c44298fc1c149afbf4c8996fb92427ae41e4649b934ca495991b7852b855" := by
  decide

set_option maxRecDepth 40000 in
/-- Known SHA-256 digest of "abc", as a sanity check of the hash
embedding. -/
theorem sha256_abc_vector :
    hexEncode (SHA256.sha256 [97, 98, 99]) =
      "ba7816bf8f01cfea414140de5dae2223b00361a396177a9cb410ff61f20015ad" := by
  decide

/-- C5: a successful upload stores as checksum exactly the hex-encoded
SHA-256 of the bytes handed to the upload call; the checksum depends on
those bytes alone, so identical input bytes always yield identical
checksums regardless of tenant, project, document, file name or the
behavior of the storage network. -/
theorem c5_checksum (net : Gcs.StorageNet) (tenant : String) (p d : Int)
    (file : Gcs.RenderedFile) (r : Gcs.UploadResult)
    (h : Gcs.upload_artifact net tenant p d file = Except.ok r) :
    r.sha256_checksum = hexEncode (SHA256.sha256 file.data) ∧
    (∀ (net' : Gcs.StorageNet) (tenant' : String) (p' d' : Int)
      (file' : Gcs.RenderedFile) (r' : Gcs.UploadResult),
      file'.data = file.data →
      Gcs.upload_artifact net' tenant' p' d' file' = Except.ok r' →
      r'.sha256_checksum = r.sha256_checksum) := by
  have key : ∀ (n : Gcs.StorageNet) (t : String) (pp dd : Int)
      (f : Gcs.RenderedFile) (rr : Gcs.UploadResult),
      Gcs.upload_artifact n t pp dd f = Except.ok rr →
      rr.sha256_checksum = hexEncode (SHA256.sha256 f.data) := by
    intro n t pp dd f rr hup
    simp only [Gcs.upload_artifact] at hup
    cases hnet : n.upload_object Gcs.BUCKET
        (Gcs.object_path t pp dd f.file_name) f.data with
    | error e => rw [hnet] at hup; cases hup
    | ok u => rw [hnet] at hup; cases hup; rfl
  refine ⟨key net tenant p d file r h, ?_⟩
  intro net' tenant' p' d' file' r' hdata h'
  rw [key net' tenant' p' d' file' r' h', key net tenant p d file r h, hdata]

/-- A storage network that accepts every upload. -/
def c5_net : Gcs.StorageNet := { upload_object := fun _ _ _ => Except.ok () }

/-- A rendered file whose bytes are "abc". -/
def c5_file : Gcs.RenderedFile :=
  { format := "markdown"
    content_type := "text/markdown; charset=utf-8"
    file_name := "Alpha_Spec_20260101_000000.md"
    data := [97, 98, 99]
    rendering_duration_ms := 5
    page_count := none }

/-- The upload result the C5 witness expects, with the known digest. -/
def c5_result : Gcs.UploadResult :=
  { gcs_path := "tenant-a/documents/7/42/Alpha_Spec_20260101_000000.md"
    file_size := 3
    sha256_checksum :=
      "ba7816bf8f01cfea414140de5dae2223b00361a396177a9cb410ff61f20015ad"
    format := "markdown"
    content_type := "text/markdown; charset=utf-8"
    file_name := "Alpha_Spec_20260101_000000.md"
    rendering_duration_ms := 5
    page_count := none }

set_option maxRecDepth 40000 in
/-- C5 witness: the checksum theorem applied to a concrete upload of the
bytes "abc", whose stored checksum is the known digest. -/
theorem c5_witness :
    Gcs.upload_artifact c5_net "tenant-a" 7 42 c5_file = Except.ok c5_result ∧
    c5_result.sha256_checksum = hexEncode (SHA256.sha256 c5_file.data) :=
  ⟨rfl, (c5_checksum c5_net "tenant-a" 7 42 c5_file c5_result rfl).1⟩

/-! ## C6: decode failures on inbound messages -/

/-- Handler environment whose payload decoding fails; the UUID generator
would produce a fresh id if it were consulted. -/
def c6_env : Handler.HandlerEnv :=
  { decode := fun _ => Except.error "expected value at line 1 column 1"
    gen_request_id := "7c9e6679-7425-40de-944b-e07fc1f90ae7"
    generate := fun _ _ _ => Except.ok "# doc"
    pdf_render := fun _ _ => Except.ok [37, 80, 68, 70]
    markdown_render := fun _ _ => Except.ok [35]
    html_render := fun _ _ => Except.ok [60]
    lowercase := Handler.ascii_lowercase
    now := 99 }

/-- An undecodable payload. -/
def c6_data : List Nat := [110, 111, 116, 45, 106, 115, 111, 110]

/-- C6 counterexample: on a decode failure the error outcome is keyed by
the fixed placeholder "unknown", not by the generated id the environment
would supply. -/
theorem c6_counterexample :
    (Handler.handle_message c6_env c6_data).request_id = "unknown" ∧
    (Handler.handle_message c6_env c6_data).status = "error" ∧
    (Handler.handle_message c6_env c6_data).request_id ≠
      c6_env.gen_request_id := by
  refine ⟨rfl, rfl, by decide⟩

/-- C6 amended: for every inbound message whose payload fails to decode,
the service produces an error outcome keyed by the fixed placeholder id
"unknown", publishes it, and still acknowledges the message. -/
theorem c6_decode_error_outcome (env : Handler.HandlerEnv)
    (denv : MainLoop.DeliveryEnv) (data : List Nat) (e : String)
    (h : env.decode data = Except.error e) :
    Handler.handle_message env data =
      Models.errorResponse "unknown" ("Invalid request format: " ++ e)
        env.now ∧
    MainLoop.handle_delivery false env denv data =
      [MainLoop.Action.processed
        (Models.errorResponse "unknown" ("Invalid request format: " ++ e)
          env.now),
       MainLoop.Action.published (MainLoop.publish_response
         (Models.errorResponse "unknown" ("Invalid request format: " ++ e)
           env.now) denv.ser denv.broker),
       MainLoop.Action.acked denv.ack.isOk] := by
  have hm : Handler.handle_message env data =
      Models.errorResponse "unknown" ("Invalid request format: " ++ e)
        env.now := by
    simp [Handler.handle_message, h]
  exact ⟨hm, by simp [MainLoop.handle_delivery, hm]⟩

/-- Delivery outcomes for the C6 witness. -/
def c6_denv : MainLoop.DeliveryEnv :=
  { ser := Except.ok [123, 125]
    broker := Except.ok "broker-msg-1"
    ack := Except.ok () }

/-- C6 witness: the amended theorem applied at the concrete failing
decoder. -/
theorem c6_witness :
    c6_env.decode c6_data =
      Except.error "expected value at line 1 column 1" ∧
    Handler.handle_message c6_env c6_data =
      Models.errorResponse "unknown"
        ("Invalid request format: " ++ "expected value at line 1 column 1")
        c6_env.now :=
  ⟨rfl, (c6_decode_error_outcome c6_env c6_denv c6_data _ rfl).1⟩

/-! ## C7: file-name sanitization -/

/-- Every file produced by the pipeline render loop carries a file name
that starts with the sanitized title. -/
theorem render_loop_file_names (env : Pipeline.RenderEnv) (tpl : String)
    (params : Json) (title : String) :
    ∀ (formats : List String) (i : Nat) (files : List Gcs.RenderedFile),
    Pipeline.render_formats_loop env tpl params title formats i =
      Except.ok files →
    ∀ file ∈ files, ∃ suffix, file.file_name =
      Pipeline.sanitize_title env.is_alphanumeric title ++ suffix := by
  intro formats
  induction formats with
  | nil =>
    intro i files h file hf
    simp only [Pipeline.render_formats_loop] at h
    cases h
    simp at hf
  | cons f rest ih =>
    intro i files h file hf
    simp only [Pipeline.render_formats_loop] at h
    cases h1 : Pipeline.render_one env.renderer tpl params f with
    | error e => rw [h1] at h; cases h
    | ok v =>
      rw [h1] at h
      cases h2 : Pipeline.render_formats_loop env tpl params title rest (i + 1) with
      | error e => rw [h2] at h; cases h
      | ok fs =>
        rw [h2] at h
        cases h
        rcases List.mem_cons.mp hf with hhead | htail
        · refine ⟨"_" ++ env.clock_format i ++ "." ++ v.2.2, ?_⟩
          rw [hhead]
          simp [String.append_assoc]
        · exact ih (i + 1) fs h2 file htail

/-- C7 amended (pipeline flow): file names produced by render_all_formats
start with the sanitized title, and sanitization is positional: a title
character that is alphanumeric, '-' or '_' is kept at its position, every
other character becomes '_' at its position. The generator-driven flow is
excluded (see the counterexample). -/
theorem c7_sanitized_file_names (env : Pipeline.RenderEnv) (tpl : String)
    (params : Json) (formats : List String) (title : String)
    (files : List Gcs.RenderedFile)
    (h : Pipeline.render_all_formats env tpl params formats title =
      Except.ok files) :
    (∀ file ∈ files, ∃ suffix, file.file_name =
      Pipeline.sanitize_title env.is_alphanumeric title ++ suffix) ∧
    (∀ i : Nat, (Pipeline.sanitize_title env.is_alphanumeric title).data[i]?
      = (title.data[i]?).map (fun c =>
        if env.is_alphanumeric c || c == '-' || c == '_' then c else '_')) := by
  constructor
  · exact render_loop_file_names env tpl params title formats 0 files h
  · intro i
    simp [Pipeline.sanitize_title, List.getElem?_map]

/-- Handler environment for the C7 counterexample. -/
def c7_env : Handler.HandlerEnv :=
  { decode := fun _ => Except.error "unused"
    gen_request_id := "gen-id"
    generate := fun _ _ _ => Except.ok "# doc"
    pdf_render := fun _ _ => Except.ok [37, 80, 68, 70]
    markdown_render := fun _ _ => Except.ok [104]
    html_render := fun _ _ => Except.ok [60]
    lowercase := Handler.ascii_lowercase
    now := 0 }

/-- Metadata whose title contains a path separator. -/
def c7_meta : Models.DocumentMetadata :=
  { title := "a/b"
    project_name := "proj"
    version := "1"
    author := "an author"
    organization := "org"
    classification := none
    distribution_statement := none
    generated_date := 0 }

/-- C7 counterexample: in the generator-driven flow, the file name only
lowercases the title and replaces spaces with hyphens, so the path-unsafe
'/' of the title survives at its position in the generated file name. -/
theorem c7_counterexample :
    Handler.render_document c7_env Models.DocumentFormat.Markdown "body"
      c7_meta = Except.ok
        { format := Models.DocumentFormat.Markdown
          content_base64 := "aA=="
          filename := "a/b-v1.md"
          mime_type := "text/markdown"
          size_bytes := 1 } ∧
    "a/b-v1.md".data[1]? = some '/' ∧
    "a/b".data[1]? = some '/' ∧
    (Char.isAlphanum '/' || '/' == '-' || '/' == '_') = false :=
  ⟨rfl, rfl, rfl, rfl⟩

/-- The rendered file the C7 witness expects: the title "My spec/v2.0"
sanitizes to "My_spec_v2_0". -/
def c7_expected_file : Gcs.RenderedFile :=
  { format := "markdown"
    content_type := "text/markdown; charset=utf-8"
    file_name := "My_spec_v2_0_20260101_000000.md"
    data := Pipeline.strBytes "# ok"
    rendering_duration_ms := 5
    page_count := none }

/-- C7 witness: the sanitization theorem applied at a concrete render of a
title containing a space, a slash and a dot. -/
theorem c7_witness :
    Pipeline.render_all_formats fixture_render_env "TPL" Json.null
      ["markdown"] "My spec/v2.0" = Except.ok [c7_expected_file] ∧
    (∀ file ∈ [c7_expected_file],
      ∃ suffix, file.file_name =
        Pipeline.sanitize_title fixture_render_env.is_alphanumeric
          "My spec/v2.0" ++ suffix) :=
  ⟨rfl,
   (c7_sanitized_file_names fixture_render_env "TPL" Json.null ["markdown"]
     "My spec/v2.0" _ rfl).1⟩

/-! ## C9: acknowledgment is unconditional on publish outcome -/

/-- C9: the per-message callback always processes, publishes and then
acknowledges, for every serialization and broker outcome (so a publish
failure is swallowed and the inbound message is still consumed);
publish_response maps a serialization failure and a broker failure to
logged outcomes rather than propagated errors. -/
theorem c9_ack_unconditional :
    (∀ (henv : Handler.HandlerEnv) (denv : MainLoop.DeliveryEnv)
      (data : List Nat),
      MainLoop.handle_delivery false henv denv data =
        [MainLoop.Action.processed (Handler.handle_message henv data),
         MainLoop.Action.published (MainLoop.publish_response
           (Handler.handle_message henv data) denv.ser denv.broker),
         MainLoop.Action.acked denv.ack.isOk]) ∧
    (∀ (resp : Models.DocumentGenerationResponse) (e : String)
      (broker : Except String String),
      MainLoop.publish_response resp (Except.error e) broker =
        MainLoop.PublishOutcome.serialize_failed e) ∧
    (∀ (resp : Models.DocumentGenerationResponse) (bytes : List Nat)
      (e : String),
      MainLoop.publish_response resp (Except.ok bytes) (Except.error e) =
        MainLoop.PublishOutcome.publish_failed resp.request_id e) := by
  refine ⟨?_, ?_, ?_⟩ <;> intros <;> rfl

/-! ## C8: the maximum-concurrent-messages bound -/

/-- C8: the configured bound is not enforced. With bound 1, two concurrent
deliveries leave two messages in flight; the admission decision and the
in-flight evolution of the loop are independent of the configured bound,
which process_messages binds as _max_concurrent and never reads. -/
theorem c8_bound_not_enforced :
    MainLoop.in_flight_after 1
      [MainLoop.LoopEvent.deliver, MainLoop.LoopEvent.deliver] = 2 ∧
    ¬ MainLoop.in_flight_after 1
      [MainLoop.LoopEvent.deliver, MainLoop.LoopEvent.deliver] ≤ 1 ∧
    (∀ (n n' : Nat) (c : Bool),
      MainLoop.admit_delivery n c = MainLoop.admit_delivery n' c) ∧
    (∀ (n n' : Nat) (events : List MainLoop.LoopEvent),
      MainLoop.in_flight_after n events = MainLoop.in_flight_after n' events) := by
  refine ⟨rfl, by decide, fun n n' c => rfl, ?_⟩
  intro n n' events
  have hstep : MainLoop.in_flight_step n = MainLoop.in_flight_step n' := by
    funext m ev
    cases ev <;> rfl
  unfold MainLoop.in_flight_after
  rw [hstep]

end DocGen
